import Mathlib

set_option linter.unusedVariables false

/-!
Shallow embedding of the sqlmodel-celery-beat repository
(`sqlmodel_celery_beat/models.py` and `sqlmodel_celery_beat/util.py`).

Python exceptions are modelled with `Except PyError`; datetimes carry an
optional tzinfo (none = naive); the pydantic values dict of a root validator
is an association list keyed by the attribute names declared on the class.
-/

/-- Python exception values raised by the embedded code. -/
inductive PyError where
  | validationError (msg : String)
  | validationErrorInfo (info : List (String × String))
  | keyError (key : String)
  | attributeError (msg : String)
  | typeError (msg : String)
  | valueError (msg : String)
deriving DecidableEq, Repr

/-- Whether an `Except` value is a success. -/
def exceptOk {ε α : Type} : Except ε α → Bool
  | Except.ok _ => true
  | Except.error _ => false

/-- A Python datetime: a wall-clock stamp plus optional tzinfo (none = naive,
some z = aware in zone z). -/
structure PyDatetime where
  stamp : Int
  tzinfo : Option String
deriving DecidableEq, Repr

/-- `util.nowfun`: `datetime.utcnow().replace(tzinfo=ZoneInfo("UTC"))`, an
aware UTC timestamp; the current clock reading is passed as a parameter. -/
def nowfun (clock : Int) : PyDatetime :=
  { stamp := clock, tzinfo := Option.some "UTC" }

/-- Message of the AttributeError raised by calling `localize` on a
`zoneinfo.ZoneInfo` object, which has no such method (it is a pytz API). -/
def localizeMsg : String := "ZoneInfo object has no attribute localize"

/-- `util.make_aware`: a naive value gets its tzinfo replaced with UTC; for an
aware value the source calls `ZoneInfo("UTC").localize(value)`, and
`zoneinfo.ZoneInfo` has no `localize` method, so the call raises
`AttributeError`. -/
def make_aware (value : PyDatetime) : Except PyError PyDatetime :=
  if value.tzinfo = Option.none then
    Except.ok { value with tzinfo := Option.some "UTC" }
  else
    Except.error (PyError.attributeError localizeMsg)

/-- `IntervalPeriod` enum from `models.py`. -/
inductive IntervalPeriod where
  | DAYS
  | HOURS
  | MINUTES
  | SECONDS
deriving DecidableEq, Repr

/-- `IntervalSchedule`: run every `every` units of `period`. -/
structure IntervalSchedule where
  every : Int := 0
  period : IntervalPeriod := IntervalPeriod.SECONDS
deriving DecidableEq, Repr

/-- `SolarEvent` enum from `models.py` (9 astronomical events). -/
inductive SolarEvent where
  | SUNRISE
  | SUNSET
  | DAWN_ASTRONOMICAL
  | DAWN_CIVIL
  | DAWN_NAUTICAL
  | DUSK_ASTRONOMICAL
  | DUSK_CIVIL
  | DUSK_NAUTICAL
  | SOLAR_NOON
deriving DecidableEq, Repr

/-- `SolarSchedule`: an event at a geographic position. Coordinates are
Python floats, modelled as rationals (only order comparisons occur). -/
structure SolarSchedule where
  event : SolarEvent
  latitude : ℚ
  longitude : ℚ
deriving DecidableEq, Repr

/-- `SolarSchedule.validate_latitude`: reject values outside [-90, 90]. -/
def SolarSchedule.validate_latitude (v : ℚ) : Except PyError ℚ :=
  if v < -90 ∨ v > 90 then
    Except.error (PyError.valueError "latitude must be between -90 and 90")
  else
    Except.ok v

/-- `SolarSchedule.validate_longitude`: reject values outside [-180, 180]. -/
def SolarSchedule.validate_longitude (v : ℚ) : Except PyError ℚ :=
  if v < -180 ∨ v > 180 then
    Except.error (PyError.valueError "longitude must be between -180 and 180")
  else
    Except.ok v

/-- Constructing a `SolarSchedule` runs both field validators and stores the
validated values unchanged. -/
def SolarSchedule.construct (event : SolarEvent) (latitude longitude : ℚ) :
    Except PyError SolarSchedule :=
  match SolarSchedule.validate_latitude latitude with
  | Except.error e => Except.error e
  | Except.ok la =>
    match SolarSchedule.validate_longitude longitude with
    | Except.error e => Except.error e
    | Except.ok lo => Except.ok { event := event, latitude := la, longitude := lo }

/-- The now-function that `SolarSchedule.schedule` hands to the celery solar
schedule: `lambda: make_aware(nowfun())`. -/
def SolarSchedule.scheduleNowfun (s : SolarSchedule) (clock : Int) :
    Except PyError PyDatetime :=
  make_aware (nowfun clock)

/-- `ClockedSchedule`: run once at a specific time. -/
structure ClockedSchedule where
  clocked_time : PyDatetime
deriving DecidableEq, Repr

/-- `CrontabSchedule`: five cron field strings, each defaulting to `*`. -/
structure CrontabSchedule where
  minute : String := "*"
  hour : String := "*"
  day_of_week : String := "*"
  day_of_month : String := "*"
  month_of_year : String := "*"
deriving DecidableEq, Repr

/-- Declared `max_length` of `CrontabSchedule.minute` (`60 * 4` in the source). -/
def CrontabSchedule.minuteMaxLength : Nat := 60 * 4

/-- Declared `max_length` of `CrontabSchedule.hour` (`24 * 4` in the source). -/
def CrontabSchedule.hourMaxLength : Nat := 24 * 4

/-- Declared `max_length` of `CrontabSchedule.day_of_week` (`64` in the source). -/
def CrontabSchedule.dayOfWeekMaxLength : Nat := 64

/-- Declared `max_length` of `CrontabSchedule.day_of_month` (`31 * 4` in the source). -/
def CrontabSchedule.dayOfMonthMaxLength : Nat := 31 * 4

/-- Declared `max_length` of `CrontabSchedule.month_of_year` (`64` in the source). -/
def CrontabSchedule.monthOfYearMaxLength : Nat := 64

/-- `PeriodicTask` fields relevant to the verified claims, with the attribute
names and defaults declared on the class: the crontab relationship attribute
is named `cron` (the foreign key column is `crontab_id`), and the relative
expiry field is named `expire_seconds`. -/
structure PeriodicTask where
  name : String
  task : String := ""
  interval : Option IntervalSchedule := Option.none
  cron : Option CrontabSchedule := Option.none
  solar : Option SolarSchedule := Option.none
  clocked : Option ClockedSchedule := Option.none
  expires : Option PyDatetime := Option.none
  expire_seconds : Option Int := Option.none
  one_off : Bool := false
  enabled : Bool := true
  last_run_at : Option PyDatetime := Option.none
  total_run_count : Nat := 0
deriving DecidableEq, Repr

/-- Values stored in the pydantic values dict seen by `validate_unique`. -/
inductive PyValue where
  | none
  | str (s : String)
  | int (n : Int)
  | bool (b : Bool)
  | datetime (d : PyDatetime)
  | interval (s : IntervalSchedule)
  | crontab (s : CrontabSchedule)
  | solar (s : SolarSchedule)
  | clocked (s : ClockedSchedule)
deriving DecidableEq, Repr

/-- Python truthiness of a dict value: `None` and `False` are falsy, `0` is
falsy, schedule objects are truthy. -/
def PyValue.truthy : PyValue → Bool
  | PyValue.none => false
  | PyValue.bool b => b
  | PyValue.int n => decide (n ≠ 0)
  | _ => true

/-- The values dict: an association list from field name to value. -/
abbrev ValuesDict := List (String × PyValue)

/-- `values.get(key)`: total, returns `None` when the key is absent. -/
def dictGet (values : ValuesDict) (key : String) : PyValue :=
  match values.find? (fun p => p.1 == key) with
  | Option.some p => p.2
  | Option.none => PyValue.none

/-- `values[key]`: raises `KeyError` when the key is absent. -/
def dictItem (values : ValuesDict) (key : String) : Except PyError PyValue :=
  match values.find? (fun p => p.1 == key) with
  | Option.some p => Except.ok p.2
  | Option.none => Except.error (PyError.keyError key)

/-- Lift an optional field into the values dict (`None` when absent). -/
def optVal {α : Type} (f : α → PyValue) : Option α → PyValue
  | Option.some x => f x
  | Option.none => PyValue.none

/-- The pydantic values dict for a `PeriodicTask`, keyed by the attribute
names declared on the class, in declaration order. -/
def PeriodicTask.validationValues (t : PeriodicTask) : ValuesDict :=
  [ ("name", PyValue.str t.name),
    ("task", PyValue.str t.task),
    ("interval", optVal PyValue.interval t.interval),
    ("cron", optVal PyValue.crontab t.cron),
    ("solar", optVal PyValue.solar t.solar),
    ("clocked", optVal PyValue.clocked t.clocked),
    ("expires", optVal PyValue.datetime t.expires),
    ("expire_seconds", optVal PyValue.int t.expire_seconds),
    ("one_off", PyValue.bool t.one_off),
    ("enabled", PyValue.bool t.enabled),
    ("last_run_at", optVal PyValue.datetime t.last_run_at),
    ("total_run_count", PyValue.int (Int.ofNat t.total_run_count)) ]

/-- Message of the missing-schedule error in `validate_unique`. -/
def missingScheduleMsg : String :=
  "One of clocked, interval, crontab, or solar must be set."

/-- Message of the multiplicity error in `validate_unique`. -/
def onlyOneMsg : String :=
  "Only one of clocked, interval, crontab, or solar must be set"

/-- Message of the clocked-must-be-one-off error in `validate_unique`. -/
def clockedOneOffMsg : String :=
  "clocked must be one off, one_off must set True"

/-- Message of the expires/expire_seconds exclusivity error in
`validate_unique`. -/
def expiresBothMsg : String :=
  "Only one can be set, in expires and expire_seconds"

/-- The condition `values["clocked"] and not values["one_off"]`, with Python
short-circuit evaluation and `KeyError` on a missing key. -/
def clockedAndNotOneOff (values : ValuesDict) : Except PyError Bool :=
  match dictItem values "clocked" with
  | Except.error e => Except.error e
  | Except.ok c =>
    if c.truthy then
      match dictItem values "one_off" with
      | Except.error e => Except.error e
      | Except.ok o => Except.ok (!o.truthy)
    else
      Except.ok false

/-- The condition `(values["expires_seconds"] is not None) and
(values["expires"] is not None)`; the first lookup uses the key
`expires_seconds` exactly as written in the source, although the declared
field is named `expire_seconds`. -/
def expiresBothSet (values : ValuesDict) : Except PyError Bool :=
  match dictItem values "expires_seconds" with
  | Except.error e => Except.error e
  | Except.ok es =>
    if decide (es ≠ PyValue.none) then
      match dictItem values "expires" with
      | Except.error e => Except.error e
      | Except.ok ex => Except.ok (decide (ex ≠ PyValue.none))
    else
      Except.ok false

/-- `PeriodicTask.validate_unique`, translated line by line. The probed
schedule type names are taken verbatim from the source list
`['interval', 'crontab', 'solar', 'clocked']`; the multiplicity error carries
one entry per selected schedule type. -/
def PeriodicTask.validate_unique (values : ValuesDict) : Except PyError Unit :=
  let schedule_types : List String := ["interval", "crontab", "solar", "clocked"]
  let selected_schedule_types := schedule_types.filter
    (fun s => decide (dictGet values s ≠ PyValue.none))
  if selected_schedule_types.length = 0 then
    Except.error (PyError.validationError missingScheduleMsg)
  else if selected_schedule_types.length > 1 then
    Except.error (PyError.validationErrorInfo
      (selected_schedule_types.map (fun s => (s, onlyOneMsg))))
  else
    match clockedAndNotOneOff values with
    | Except.error e => Except.error e
    | Except.ok true => Except.error (PyError.validationError clockedOneOffMsg)
    | Except.ok false =>
      match expiresBothSet values with
      | Except.error e => Except.error e
      | Except.ok true => Except.error (PyError.validationError expiresBothMsg)
      | Except.ok false => Except.ok ()

/-- The single `PeriodicTasksChanged` row (`ident = 1`). -/
structure PeriodicTasksChangedRow where
  ident : Int := 1
  last_update : PyDatetime
deriving DecidableEq, Repr

/-- Database state visible to the embedded operations: the stored tasks and
the optional change-tracker row. -/
structure DBState where
  tasks : List PeriodicTask := []
  tracker : Option PeriodicTasksChangedRow := Option.none
deriving DecidableEq, Repr

/-- Message of the TypeError raised when `PeriodicTasksChanged.changed` is
called with a single positional argument. -/
def changedArityMsg : String :=
  "changed missing 1 required positional argument instance"

/-- `PeriodicTask.save` and `PeriodicTask.delete` invoke
`PeriodicTasksChanged.changed(self)`. `changed` is a classmethod whose
signature is `(cls, session, instance, **kwargs)`: the call supplies only one
positional argument, so Python raises `TypeError` before the body of
`changed` runs, and the tracker row is never touched. -/
def PeriodicTasksChanged.changedCalledWithSelfOnly : Except PyError Unit :=
  Except.error (PyError.typeError changedArityMsg)

/-- Result of a lifecycle operation: the final task object, the database
state after the session operations, and the outcome of the call (the
exception it raises, if any). -/
structure OpResult where
  task : PeriodicTask
  db : DBState
  outcome : Except PyError Unit

/-- `session.add` followed by `session.commit`: persist the task, replacing a
stored task of the same name or appending a new row. -/
def commitTask (tasks : List PeriodicTask) (t : PeriodicTask) : List PeriodicTask :=
  if tasks.any (fun u => u.name == t.name) then
    tasks.map (fun u => if u.name == t.name then t else u)
  else
    tasks ++ [t]

/-- `PeriodicTask.save`: clear `last_run_at` when the task is disabled, add
and commit, then perform the (failing) notification call. -/
def PeriodicTask.save (t : PeriodicTask) (db : DBState) : OpResult :=
  let t1 := if !t.enabled then { t with last_run_at := Option.none } else t
  { task := t1,
    db := { db with tasks := commitTask db.tasks t1 },
    outcome := PeriodicTasksChanged.changedCalledWithSelfOnly }

/-- `PeriodicTask.delete`: `session.delete(self)`, then the (failing)
notification call. -/
def PeriodicTask.delete (t : PeriodicTask) (db : DBState) : OpResult :=
  { task := t,
    db := { db with tasks := db.tasks.filter (fun u => !(u.name == t.name)) },
    outcome := PeriodicTasksChanged.changedCalledWithSelfOnly }

/-- `session.get(PeriodicTasksChanged, ident=1)`: SQLAlchemy `Session.get`
returns the row with the given primary key, or `None` when absent (it does
not raise `NoResultFound`). -/
def sessionGetTrackerRow (db : DBState) : Option PeriodicTasksChangedRow :=
  db.tracker

/-- Message of the AttributeError raised by `.last_update` on `None`. -/
def noneLastUpdateMsg : String :=
  "NoneType object has no attribute last_update"

/-- `PeriodicTasksChanged.last_change`: returns
`session.get(cls, ident=1).last_update` inside `try ... except NoResultFound`.
When no row exists `session.get` returns `None`, and the attribute access on
`None` raises `AttributeError`, which the `NoResultFound` handler does not
catch. -/
def PeriodicTasksChanged.last_change (db : DBState) :
    Except PyError (Option PyDatetime) :=
  match sessionGetTrackerRow db with
  | Option.some row => Except.ok (Option.some row.last_update)
  | Option.none => Except.error (PyError.attributeError noneLastUpdateMsg)

/-- The schedule object returned by `PeriodicTask.scheduler`. -/
inductive SchedRef where
  | interval (s : IntervalSchedule)
  | crontab (s : CrontabSchedule)
  | solar (s : SolarSchedule)
  | clocked (s : ClockedSchedule)
deriving DecidableEq, Repr

/-- Message of the AttributeError raised by the access `self.crontab`. -/
def crontabAttrMsg : String :=
  "PeriodicTask object has no attribute crontab"

/-- The attribute access `self.crontab` inside `PeriodicTask.scheduler`:
`PeriodicTask` declares `crontab_id` and the relationship attribute `cron`,
but no attribute named `crontab`, so the access raises `AttributeError`. -/
def PeriodicTask.attrCrontab (t : PeriodicTask) :
    Except PyError (Option CrontabSchedule) :=
  Except.error (PyError.attributeError crontabAttrMsg)

/-- `PeriodicTask.scheduler`: probe `self.interval`, `self.crontab`,
`self.solar`, `self.clocked` in order, returning the first truthy one;
fall through to the implicit `None`. -/
def PeriodicTask.scheduler (t : PeriodicTask) : Except PyError (Option SchedRef) :=
  match t.interval with
  | Option.some s => Except.ok (Option.some (SchedRef.interval s))
  | Option.none =>
    match t.attrCrontab with
    | Except.error e => Except.error e
    | Except.ok c =>
      match c with
      | Option.some s => Except.ok (Option.some (SchedRef.crontab s))
      | Option.none =>
        match t.solar with
        | Option.some s => Except.ok (Option.some (SchedRef.solar s))
        | Option.none =>
          match t.clocked with
          | Option.some s => Except.ok (Option.some (SchedRef.clocked s))
          | Option.none => Except.ok Option.none

/-- An interval schedule used as a concrete input. -/
def exInterval : IntervalSchedule :=
  { every := 30, period := IntervalPeriod.SECONDS }

/-- A crontab schedule (all fields at their defaults) used as a concrete input. -/
def exCrontab : CrontabSchedule := {}

/-- A solar schedule (sunrise in New York) used as a concrete input. -/
def exSolar : SolarSchedule :=
  { event := SolarEvent.SUNRISE, latitude := 40, longitude := -74 }

/-- A task with both the interval and the cron references set. -/
def taskIntervalAndCron : PeriodicTask :=
  { name := "t1", interval := Option.some exInterval, cron := Option.some exCrontab }

/-- A task with none of the four schedule references set. -/
def taskNoSchedule : PeriodicTask := { name := "t0" }

/-- A task with only the interval reference set and no expiry fields. -/
def taskIntervalOnly : PeriodicTask :=
  { name := "t5", interval := Option.some exInterval }

/-- A task with all four schedule references unset. -/
def taskAllNone : PeriodicTask := { name := "t10" }

/-- Claim C1. The exactly-one-schedule rule is broken in the code: the
validator probes the values key `crontab` while the class attribute is named
`cron`, so a record with both the interval and the cron references set is not
rejected with the multiplicity error (it passes the count check and later
raises `KeyError` on the misspelled expiry key); a record with none of the
four references set does produce the missing-schedule error. -/
theorem C1_multiplicity_check_misses_cron :
    (PeriodicTask.validate_unique taskIntervalAndCron.validationValues
      = Except.error (PyError.keyError "expires_seconds"))
    ∧ (PeriodicTask.validate_unique taskNoSchedule.validationValues
      = Except.error (PyError.validationError missingScheduleMsg)) := by
  exact ⟨rfl, rfl⟩

/-- Claim C2. Save and delete never successfully notify the change tracker:
the call `PeriodicTasksChanged.changed(self)` passes the task in the session
parameter slot and omits the required instance argument, raising `TypeError`,
and the tracker row in the database is left untouched by both operations. -/
theorem C2_save_delete_never_notify (t : PeriodicTask) (db : DBState) :
    ((t.save db).db.tracker = db.tracker
      ∧ (t.save db).outcome = Except.error (PyError.typeError changedArityMsg))
    ∧ ((t.delete db).db.tracker = db.tracker
      ∧ (t.delete db).outcome = Except.error (PyError.typeError changedArityMsg)) := by
  exact ⟨⟨rfl, rfl⟩, ⟨rfl, rfl⟩⟩

/-- Claim C3. The now-function that `SolarSchedule.schedule` passes to the
solar calculator is `lambda: make_aware(nowfun())`; `nowfun` returns a
timezone-aware timestamp and `make_aware` then calls the nonexistent
`ZoneInfo.localize`, so the now-function raises `AttributeError` on every
call, for every solar schedule and every clock value. -/
theorem C3_solar_nowfun_raises (s : SolarSchedule) (clock : Int) :
    s.scheduleNowfun clock = Except.error (PyError.attributeError localizeMsg) := by
  exact rfl

/-- Claim C4. For a task whose clocked reference is set (and whose other
probed references are unset so the exactly-one check passes), validation
fails with the clocked-must-be-one-off error when `one_off` is false; when
`one_off` is true the clocked rule does not reject the record — the run
continues past it (and then fails only with the unrelated `KeyError` of the
later expiry check). -/
theorem C4_clocked_must_be_one_off
    (nm tk : String) (cr : Option CrontabSchedule) (c : ClockedSchedule)
    (en : Bool) (ex : Option PyDatetime) (es : Option Int)
    (lr : Option PyDatetime) (rc : Nat) :
    (PeriodicTask.validate_unique (PeriodicTask.validationValues
        { name := nm, task := tk, interval := Option.none, cron := cr,
          solar := Option.none, clocked := Option.some c,
          expires := ex, expire_seconds := es, one_off := false,
          enabled := en, last_run_at := lr, total_run_count := rc })
      = Except.error (PyError.validationError clockedOneOffMsg))
    ∧ (PeriodicTask.validate_unique (PeriodicTask.validationValues
        { name := nm, task := tk, interval := Option.none, cron := cr,
          solar := Option.none, clocked := Option.some c,
          expires := ex, expire_seconds := es, one_off := true,
          enabled := en, last_run_at := lr, total_run_count := rc })
      = Except.error (PyError.keyError "expires_seconds")) := by
  exact ⟨rfl, rfl⟩

/-- Claim C5. The expiry exclusivity check is broken in the code: it reads
`values["expires_seconds"]` although the declared field is `expire_seconds`,
so every record that reaches the check raises `KeyError` — in particular a
record with neither expiry field set is rejected, and a record with both set
raises `KeyError` rather than the intended `ValidationError`. -/
theorem C5_expires_check_raises_keyerror :
    (PeriodicTask.validate_unique taskIntervalOnly.validationValues
      = Except.error (PyError.keyError "expires_seconds"))
    ∧ (PeriodicTask.validate_unique (PeriodicTask.validationValues
        { taskIntervalOnly with
          expires := Option.some { stamp := 0, tzinfo := Option.some "UTC" },
          expire_seconds := Option.some 60 })
      = Except.error (PyError.keyError "expires_seconds")) := by
  exact ⟨rfl, rfl⟩

/-- Claim C6. Saving a disabled task clears `last_run_at` to null before the
commit, both on the in-memory object and in the persisted row; saving an
enabled task leaves `last_run_at` unchanged and persists the task as is. -/
theorem C6_save_clears_last_run_at_when_disabled (t : PeriodicTask) (db : DBState) :
    ((({ t with enabled := false }).save db).task.last_run_at = Option.none
      ∧ (({ t with enabled := false }).save db).db.tasks
        = commitTask db.tasks { t with enabled := false, last_run_at := Option.none })
    ∧ ((({ t with enabled := true }).save db).task.last_run_at = t.last_run_at
      ∧ (({ t with enabled := true }).save db).db.tasks
        = commitTask db.tasks { t with enabled := true }) := by
  exact ⟨⟨rfl, rfl⟩, ⟨rfl, rfl⟩⟩

/-- Claim C7. `last_change` does not return `None` on an empty table: with no
`ident=1` row, `session.get` returns `None` and the `.last_update` access
raises `AttributeError` (uncaught by the `NoResultFound` handler); when the
row exists, its `last_update` timestamp is returned. -/
theorem C7_last_change_raises_on_empty_table :
    (PeriodicTasksChanged.last_change { tasks := [], tracker := Option.none }
      = Except.error (PyError.attributeError noneLastUpdateMsg))
    ∧ (∀ (db : DBState) (row : PeriodicTasksChangedRow),
        PeriodicTasksChanged.last_change { db with tracker := Option.some row }
          = Except.ok (Option.some row.last_update)) := by
  exact ⟨rfl, fun db row => rfl⟩

/-- Claim C8. `SolarSchedule` construction succeeds, storing latitude and
longitude unchanged, exactly when latitude lies in [-90, 90] and longitude in
[-180, 180]; a latitude or longitude outside its range makes construction
fail (raise), never clamp. -/
theorem C8_solar_construct_range_validation (event : SolarEvent) (lat lon : ℚ) :
    ((-90 ≤ lat ∧ lat ≤ 90 ∧ -180 ≤ lon ∧ lon ≤ 180) →
      SolarSchedule.construct event lat lon
        = Except.ok { event := event, latitude := lat, longitude := lon })
    ∧ (¬(-90 ≤ lat ∧ lat ≤ 90) →
      exceptOk (SolarSchedule.construct event lat lon) = false)
    ∧ (¬(-180 ≤ lon ∧ lon ≤ 180) →
      exceptOk (SolarSchedule.construct event lat lon) = false) := by
  refine ⟨?_, ?_, ?_⟩
  · rintro ⟨h1, h2, h3, h4⟩
    have hla : SolarSchedule.validate_latitude lat = Except.ok lat := by
      unfold SolarSchedule.validate_latitude
      rw [if_neg]
      push_neg
      exact ⟨h1, h2⟩
    have hlo : SolarSchedule.validate_longitude lon = Except.ok lon := by
      unfold SolarSchedule.validate_longitude
      rw [if_neg]
      push_neg
      exact ⟨h3, h4⟩
    unfold SolarSchedule.construct
    rw [hla, hlo]
  · intro h
    have hcond : lat < -90 ∨ lat > 90 := by
      rcases not_and_or.mp h with h1 | h1
      · exact Or.inl (not_le.mp h1)
      · exact Or.inr (not_le.mp h1)
    unfold SolarSchedule.construct SolarSchedule.validate_latitude
    rw [if_pos hcond]
    rfl
  · intro h
    have hcond : lon < -180 ∨ lon > 180 := by
      rcases not_and_or.mp h with h1 | h1
      · exact Or.inl (not_le.mp h1)
      · exact Or.inr (not_le.mp h1)
    unfold SolarSchedule.construct SolarSchedule.validate_latitude
      SolarSchedule.validate_longitude
    by_cases hl : lat < -90 ∨ lat > 90
    · rw [if_pos hl]
      rfl
    · rw [if_neg hl, if_pos hcond]
      rfl

/-- Witness for claim C8 at the New York sunrise coordinates. -/
theorem C8_solar_construct_range_validation_witness :
    SolarSchedule.construct SolarEvent.SUNRISE 40 (-74)
      = Except.ok { event := SolarEvent.SUNRISE, latitude := 40, longitude := -74 } :=
  (C8_solar_construct_range_validation SolarEvent.SUNRISE 40 (-74)).1 (by norm_num)

/-- Claim C9. The declared maximum persisted widths of the crontab field
strings are: minute 240 characters, hour 96, day-of-month 124, day-of-week
and month-of-year 64 each. -/
theorem C9_crontab_field_widths :
    CrontabSchedule.minuteMaxLength = 240
    ∧ CrontabSchedule.hourMaxLength = 96
    ∧ CrontabSchedule.dayOfMonthMaxLength = 124
    ∧ CrontabSchedule.dayOfWeekMaxLength = 64
    ∧ CrontabSchedule.monthOfYearMaxLength = 64 := by
  exact ⟨rfl, rfl, rfl, rfl, rfl⟩

/-- Claim C10. `scheduler` does not return `None` when all four schedule
references are unset: once the interval probe fails, the access
`self.crontab` raises `AttributeError` (the attribute is named `cron`), so a
task with no schedule — and likewise a task whose only schedule is solar —
raises instead of returning; only a task with the interval reference set gets
its schedule returned as claimed. -/
theorem C10_scheduler_raises_attribute_error :
    (PeriodicTask.scheduler taskAllNone
      = Except.error (PyError.attributeError crontabAttrMsg))
    ∧ (PeriodicTask.scheduler { taskAllNone with solar := Option.some exSolar }
      = Except.error (PyError.attributeError crontabAttrMsg))
    ∧ (∀ (t : PeriodicTask) (s : IntervalSchedule),
        PeriodicTask.scheduler { t with interval := Option.some s }
          = Except.ok (Option.some (SchedRef.interval s))) := by
  exact ⟨rfl, rfl, fun t s => rfl⟩
